import Mathlib

/-!
Shallow embedding of the VPlugin plugin loader (src/plugin.rs, src/error.rs).

The Rust code performs filesystem, zip and dynamic-loading effects; those
external effects are modelled by explicit environment records whose fields
record the outcome of each external call.  Functions that can `panic!` or
`unwrap()` on failure return a result type with an explicit `panic`
constructor, so termination of the process is observable in the model.
-/

namespace VPlugin

/-- Mirrors `VPluginError` from src/error.rs. -/
inductive VPluginError where
  | parametersError
  | invalidPlugin
  | noSuchFile
  | permissionDenied
  | missingSymbol
  | failedToInitialize
  | internalError (err : String)
deriving DecidableEq, Repr

/-- The `std::io::ErrorKind` values distinguished by the code.  `unhandled`
stands for every kind that falls into the `_ => panic!()` arm. -/
inductive IoErrorKind where
  | permissionDenied
  | unsupported
  | notFound
  | interrupted
  | unexpectedEof
  | outOfMemory
  | other
  | unhandled
deriving DecidableEq, Repr

/-- Result of an operation that can return a value, return a typed error,
or terminate the process (`panic!` / `unwrap` on failure). -/
inductive RunResult (α : Type) where
  | ok (val : α)
  | error (e : VPluginError)
  | panic (msg : String)
deriving DecidableEq, Repr

/-- Result of a `&mut self` operation: an error return still leaves the
receiver in a definite state, carried alongside the error. -/
inductive MutResult (σ : Type) where
  | ok (s : σ)
  | error (e : VPluginError) (s : σ)
  | panic (msg : String)
deriving DecidableEq, Repr

/-- A bound dynamic library (`libloading::Library`), modelled by the set of
its exported symbol names. -/
structure Library where
  symbols : List String
deriving DecidableEq, Repr

/-- `Library::get`: a symbol lookup succeeds exactly when the (nul-terminated)
name is among the module's exports. -/
def Library.get (lib : Library) (name : String) : Bool :=
  lib.symbols.contains name

/-- The inner `metadata` table of the deserialized manifest
(struct `Metadata` in src/plugin.rs). -/
structure Metadata where
  description : Option String
  version : String
  name : String
  objfile : String
deriving DecidableEq, Repr

/-- The top-level deserialization target (struct `Data` in src/plugin.rs). -/
structure Data where
  metadata : Metadata
deriving DecidableEq, Repr

/-- Mirrors `PluginMetadata` from src/plugin.rs. -/
structure PluginMetadata where
  description : Option String
  version : String
  name : String
  filename : String
  objfile : String
deriving DecidableEq, Repr

/-- One entry of the zip archive, with the outcomes of the external calls the
extraction loop makes on it: `readable` is whether `by_index` succeeds,
`enclosedName` is the sanitized output path (`None` = zip-slip rejected, the
entry is skipped), `fsOk` is whether the directory-creation / file-creation /
copy chain for this entry succeeds. -/
structure ZipEntry where
  name : String
  readable : Bool
  enclosedName : Option String
  fsOk : Bool
deriving DecidableEq, Repr

/-- Mirrors struct `Plugin` from src/plugin.rs.  `raw` is the module handle,
`filename` the original archive path, `archive` the retained zip handle. -/
structure Plugin where
  metadata : Option PluginMetadata
  filename : String
  is_valid : Bool
  started : Bool
  raw : Option Library
  archive : List ZipEntry
deriving DecidableEq, Repr

/-- The shared `match e.kind()` arms that map an I/O error kind to a
`VPluginError` (`none` = the `_ => panic!()` arm). -/
def ioErrorToVPluginError (k : IoErrorKind) : Option VPluginError :=
  match k with
  | .permissionDenied => some .permissionDenied
  | .unsupported => some (.internalError "Unsupported file")
  | .notFound => some .noSuchFile
  | .interrupted => some .invalidPlugin
  | .unexpectedEof => some .invalidPlugin
  | .outOfMemory => some (.internalError "Host is out of memory")
  | .other => some (.internalError "Unknown error.")
  | .unhandled => none

/-- Rust `String::is_empty`: the string has no characters. -/
def strIsEmpty (s : String) : Bool :=
  s.data.isEmpty

/-- Rust `str::contains(' ')`: some character of the string is a space. -/
def strContainsSpace (s : String) : Bool :=
  s.data.contains ' '

/-- The `panic!` message of the empty/invalid-name arm of
`PluginMetadata::load`. -/
def nameViolationMsg : String :=
  "Attempted to use a plugin that has an empty name in its metadata or contains an invalid character in the field."

/-- Environment for `PluginMetadata::load`: outcome of opening
`metadata.toml` (`none` = opened), of `read_to_string`, and the external
toml parser. -/
structure MetaEnv where
  openMetadata : Option IoErrorKind
  readToString : Option String
  parseToml : String → Option Data

/-- `PluginMetadata::load` (src/plugin.rs lines 114-185).  The record built
first from `plugin.filename` is fully overwritten before being returned
(`filename` becomes `"metadata.toml"`, `description` is never reassigned from
the manifest and stays `None`). -/
def PluginMetadata.load (env : MetaEnv) (_plugin : Plugin) :
    RunResult PluginMetadata :=
  match env.openMetadata with
  | some k =>
      match ioErrorToVPluginError k with
      | some e => .error e
      | none => .panic "unhandled io error kind"
  | none =>
      match env.readToString with
      | none => .error .parametersError
      | some contents =>
          match env.parseToml contents with
          | none => .error .parametersError
          | some data =>
              if strIsEmpty data.metadata.name || strContainsSpace data.metadata.name then
                .panic nameViolationMsg
              else
                .ok { description := none
                    , version := data.metadata.version
                    , name := data.metadata.name
                    , filename := "metadata.toml"
                    , objfile := data.metadata.objfile }

/-- The extraction loop of `Plugin::load_archive`: each entry either panics
(`by_index(i).unwrap()` on a corrupted entry, or an `unwrap` on the
filesystem chain), is skipped (zip-slip rejection via `enclosed_name`), or is
extracted. -/
def extractEntries : List ZipEntry → RunResult Unit
  | [] => .ok ()
  | e :: rest =>
      if e.readable = false then .panic "corrupted archive entry"
      else
        match e.enclosedName with
        | none => extractEntries rest
        | some _ =>
            if e.fsOk then extractEntries rest
            else .panic "failed to extract archive entry"

/-- Environment for `Plugin::load_archive`: outcome of `fs::File::open`
(`none` = opened), of `create_dir(temp/vplugin)` (a failure is only logged),
of `set_current_dir(..).unwrap()` (taken only when `create_dir` succeeded),
and of `ZipArchive::new` (`none` = corrupted package, `unwrap` panics,
`some entries` = archive contents). -/
structure ArchiveEnv where
  openFile : Option IoErrorKind
  createVpluginDir : Bool
  setCurrentDirOk : Bool
  zip : Option (List ZipEntry)

/-- `Plugin::load_archive` (src/plugin.rs lines 189-257). -/
def Plugin.load_archive (env : ArchiveEnv) (filename : String) :
    RunResult Plugin :=
  match env.openFile with
  | some k =>
      match ioErrorToVPluginError k with
      | some e => .error e
      | none => .panic "unhandled io error kind"
  | none =>
      if env.createVpluginDir && !env.setCurrentDirOk then
        .panic "set_current_dir failed"
      else
        match env.zip with
        | none => .panic "corrupted or unreadable package"
        | some entries =>
            match extractEntries entries with
            | .panic m => .panic m
            | _ =>
                .ok { metadata := none
                    , filename := filename
                    , is_valid := false
                    , started := false
                    , raw := none
                    , archive := entries }

/-- Environment for the binder stage of `Plugin::load_metadata`: outcome of
`create_dir_all(..).unwrap()`, of `fs::copy(..).unwrap()`, and of
`Library::new(..)` (`none` = load error, `unwrap` panics). -/
structure BindEnv where
  createDirOk : Bool
  copyOk : Bool
  bind : Option Library

/-- `Plugin::load_metadata` (src/plugin.rs lines 341-364). -/
def Plugin.load_metadata (menv : MetaEnv) (benv : BindEnv) (self : Plugin) :
    MutResult Plugin :=
  match PluginMetadata.load menv self with
  | .ok v =>
      if benv.createDirOk = false then .panic "create_dir_all failed"
      else if benv.copyOk = false then .panic "failed to copy module file"
      else
        match benv.bind with
        | none => .panic "failed to bind module"
        | some lib =>
            .ok { self with raw := some lib, is_valid := true, metadata := some v }
  | .error e => .error e self
  | .panic m => .panic m

/-- Environment for `Plugin::load`: the archive stage, the metadata/bind
stage, and the final `create_dir_all(..).expect(..)`. -/
structure LoadEnv where
  arch : ArchiveEnv
  meta : MetaEnv
  bindEnv : BindEnv
  createPluginDirOk : Bool

/-- `Plugin::load` (src/plugin.rs lines 261-286): `load_archive`, then
`load_metadata`, then `create_dir_all(temp/vplugin/name).expect(..)`. -/
def Plugin.load (env : LoadEnv) (filename : String) : RunResult Plugin :=
  match Plugin.load_archive env.arch filename with
  | .error e => .error e
  | .panic m => .panic m
  | .ok plugin =>
      match Plugin.load_metadata env.meta env.bindEnv plugin with
      | .error e _ => .error e
      | .panic m => .panic m
      | .ok plugin =>
          if env.createPluginDirOk then .ok plugin
          else .panic "Cannot create plugin directory!"

/-- `Plugin::load_vhook` (src/plugin.rs lines 290-307).  A resolved hook is
modelled by the resolved export name.  The `none` branch of the inner match is
unreachable under the guard (`unwrap_unchecked` in the source). -/
def Plugin.load_vhook (self : Plugin) (fn_name : String) :
    Except VPluginError String :=
  if !self.started || !self.is_valid || self.raw.isNone then
    .error .invalidPlugin
  else
    match self.raw with
    | some lib =>
        if lib.get fn_name then .ok fn_name else .error .missingSymbol
    | none => .error .invalidPlugin

/-- `Plugin::get_hook`: delegates to `load_vhook`. -/
def Plugin.get_hook (self : Plugin) (fn_name : String) :
    Except VPluginError String :=
  Plugin.load_vhook self fn_name

/-- `Plugin::get_custom_hook` (src/plugin.rs lines 314-334): same guard and
lookup as `load_vhook`, generic over the caller-declared signature (erased in
the model). -/
def Plugin.get_custom_hook (self : Plugin) (fn_name : String) :
    Except VPluginError String :=
  if !self.started || !self.is_valid || self.raw.isNone then
    .error .invalidPlugin
  else
    match self.raw with
    | some lib =>
        if lib.get fn_name then .ok fn_name else .error .missingSymbol
    | none => .error .invalidPlugin

/-- The compile-time configuration consulted by `terminate`
(`cfg!(feature = "non_reusable_plugins")`). -/
structure Config where
  non_reusable_plugins : Bool
deriving DecidableEq, Repr

/-- `Plugin::terminate` (src/plugin.rs lines 382-421).  When the destructor
export is missing, the warning message evaluates
`self.get_metadata().as_ref().unwrap().name`, which panics if the metadata is
absent. -/
def Plugin.terminate (cfg : Config) (self : Plugin) : MutResult Plugin :=
  match self.raw with
  | none => .error .invalidPlugin self
  | some lib =>
      if self.started = false then .error .invalidPlugin self
      else
        if lib.get "vplugin_exit" then
          let stopped := { self with started := false }
          if cfg.non_reusable_plugins then
            .ok { stopped with
                    is_valid := false
                  , raw := none
                  , filename := ""
                  , metadata := none }
          else .ok stopped
        else
          match self.metadata with
          | none => .panic "called Option unwrap on a None value"
          | some _ => .error .invalidPlugin self

/-- `Plugin::is_function_available` (src/plugin.rs lines 424-432). -/
def Plugin.is_function_available (self : Plugin) (name : String) : Bool :=
  match self.raw with
  | none => false
  | some lib => lib.get name

/-- `impl Drop for Plugin` (src/plugin.rs lines 443-461): computes the staging
directory from `self.metadata.as_ref().unwrap().name` (panics when metadata is
absent), then removes it best-effort — a removal failure (`removeDirOk =
false`) is only logged. -/
def Plugin.drop (self : Plugin) (removeDirOk : Bool) : RunResult Unit :=
  match self.metadata with
  | none => .panic "called Option unwrap on a None value"
  | some _ =>
      match removeDirOk with
      | true => .ok ()
      | false => .ok ()

/-- The spec's state-validity chain: `isStarted ⇒ isValid ⇒ moduleHandle
present`. -/
def Plugin.invariant (p : Plugin) : Prop :=
  (p.started = true → p.is_valid = true) ∧
  (p.is_valid = true → p.raw.isSome = true)

instance (p : Plugin) : Decidable p.invariant := by
  unfold Plugin.invariant; infer_instance

/-! ## Concrete inputs used by witnesses and counterexamples -/

def c4Lib : Library := ⟨["vplugin_init", "hook_a"]⟩

def c4Plugin : Plugin :=
  { metadata := none, filename := "a.vpl", is_valid := true, started := false
  , raw := some c4Lib, archive := [] }

def c7Lib : Library := ⟨["hook_present"]⟩

def c7Bound : Plugin :=
  { metadata := none, filename := "b.vpl", is_valid := true, started := true
  , raw := some c7Lib, archive := [] }

def c7Unbound : Plugin :=
  { metadata := none, filename := "b.vpl", is_valid := false, started := false
  , raw := none, archive := [] }

def c10Plugin : Plugin :=
  { metadata := none, filename := "c.vpl", is_valid := false, started := false
  , raw := none, archive := [] }

def c5Lib : Library := ⟨["vplugin_init"]⟩

def c5Metadata : PluginMetadata :=
  { description := none, version := "1.0.0", name := "c5plugin"
  , filename := "metadata.toml", objfile := "c5.so" }

def c5Started : Plugin :=
  { metadata := some c5Metadata, filename := "c5.vpl", is_valid := true
  , started := true, raw := some c5Lib, archive := [] }

def c5Unstarted : Plugin :=
  { metadata := some c5Metadata, filename := "c5.vpl", is_valid := true
  , started := false, raw := some c5Lib, archive := [] }

/-- The terminal state produced by a successful `terminate` under the
`non_reusable_plugins` configuration: `started` and `is_valid` cleared, the
module handle released, the metadata and the source path cleared. -/
def Plugin.nonReusableReset (p : Plugin) : Plugin :=
  { metadata := none, filename := "", is_valid := false, started := false
  , raw := none, archive := p.archive }

def c6Lib : Library := ⟨["vplugin_exit", "hook_a"]⟩

def c6Metadata : PluginMetadata :=
  { description := none, version := "1.0.0", name := "c6plugin"
  , filename := "metadata.toml", objfile := "c6.so" }

def c6Plugin : Plugin :=
  { metadata := some c6Metadata, filename := "c6.vpl", is_valid := true
  , started := true, raw := some c6Lib, archive := [] }

def c8Env : ArchiveEnv :=
  { openFile := none, createVpluginDir := true, setCurrentDirOk := true
  , zip := some [] }

def c1Data : Data := ⟨⟨none, "0.1.0", "bad name", "plugin.so"⟩⟩

def c1MetaEnv : MetaEnv :=
  { openMetadata := none, readToString := some "c1manifest"
  , parseToml := fun _ => some c1Data }

def c1Plugin : Plugin :=
  { metadata := none, filename := "c1.vpl", is_valid := false
  , started := false, raw := none, archive := [] }

def c2ArchEnv : ArchiveEnv :=
  { openFile := none, createVpluginDir := false, setCurrentDirOk := true
  , zip := none }

def c2Data : Data := ⟨⟨none, "1.0.0", "c2plugin", "c2.so"⟩⟩

def c2MetaEnv : MetaEnv :=
  { openMetadata := none, readToString := some "c2manifest"
  , parseToml := fun _ => some c2Data }

def c2Plugin : Plugin :=
  { metadata := none, filename := "c2.vpl", is_valid := false
  , started := false, raw := none, archive := [] }

def c3Plugin : Plugin :=
  { metadata := none, filename := "c3.vpl", is_valid := false
  , started := false, raw := none, archive := [] }

def c3Metadata : PluginMetadata :=
  { description := none, version := "1.0.0", name := "c3plugin"
  , filename := "metadata.toml", objfile := "c3.so" }

def c9Entries : List ZipEntry :=
  [⟨"metadata.toml", true, some "metadata.toml", true⟩,
   ⟨"c9.so", true, some "c9.so", true⟩]

def c9Data : Data := ⟨⟨some "demo plugin", "1.0.0", "c9plugin", "c9.so"⟩⟩

def c9Lib : Library := ⟨["vplugin_init", "vplugin_exit"]⟩

def c9Env : LoadEnv :=
  { arch :=
      { openFile := none, createVpluginDir := true, setCurrentDirOk := true
      , zip := some c9Entries }
  , meta :=
      { openMetadata := none, readToString := some "c9manifest"
      , parseToml := fun _ => some c9Data }
  , bindEnv := { createDirOk := true, copyOk := true, bind := some c9Lib }
  , createPluginDirOk := true }

/-! ## C4: hook resolution guard -/

/-- C4: for every plugin and export name, when the plugin is not started, or
not valid, or has no bound module, both the generic hook resolver
(`load_vhook`) and the custom-signature resolver (`get_custom_hook`) fail
with `InvalidPlugin`, regardless of whether the module is bound. -/
theorem c4_hook_resolution_guard (p : Plugin) (fn : String)
    (h : p.started = false ∨ p.is_valid = false ∨ p.raw = none) :
    p.load_vhook fn = .error .invalidPlugin ∧
    p.get_custom_hook fn = .error .invalidPlugin := by
  unfold Plugin.load_vhook Plugin.get_custom_hook
  rcases h with h | h | h <;> simp [h]

/-- C4 witness: a bound but not-started plugin still gets `InvalidPlugin`
from both resolvers. -/
theorem c4_hook_resolution_guard_witness :
    c4Plugin.load_vhook "hook_a" = .error .invalidPlugin ∧
    c4Plugin.get_custom_hook "hook_a" = .error .invalidPlugin :=
  c4_hook_resolution_guard c4Plugin "hook_a" (Or.inl rfl)

/-! ## C7: the export-availability probe is total -/

/-- C7: `is_function_available` never returns an error (its type is `Bool`):
it is `false` for an unbound plugin, `false` for a symbol absent from the
bound module, and `true` for a symbol present in it. -/
theorem c7_export_probe_total (p : Plugin) (name : String) :
    (p.raw = none → p.is_function_available name = false) ∧
    (∀ lib, p.raw = some lib → lib.get name = false →
      p.is_function_available name = false) ∧
    (∀ lib, p.raw = some lib → lib.get name = true →
      p.is_function_available name = true) := by
  refine ⟨fun h => ?_, fun lib h hg => ?_, fun lib h hg => ?_⟩ <;>
    simp [Plugin.is_function_available, h] <;> exact hg

/-- C7 witness: the probe at an unbound plugin, an absent symbol and a
present symbol. -/
theorem c7_export_probe_total_witness :
    c7Unbound.is_function_available "hook_present" = false ∧
    c7Bound.is_function_available "hook_absent" = false ∧
    c7Bound.is_function_available "hook_present" = true :=
  ⟨(c7_export_probe_total c7Unbound "hook_present").1 rfl,
   (c7_export_probe_total c7Bound "hook_absent").2.1 c7Lib rfl rfl,
   (c7_export_probe_total c7Bound "hook_present").2.2 c7Lib rfl rfl⟩

/-! ## C10: a failed metadata/bind stage leaves the plugin unchanged -/

/-- C10: whenever `load_metadata` returns an error, the plugin it was called
on is unchanged — in particular `metadata` and the module handle remain
absent when they were absent, and `is_valid`/`started` keep their prior
values. -/
theorem c10_load_metadata_error_unchanged (menv : MetaEnv) (benv : BindEnv)
    (p : Plugin) (e : VPluginError) (p' : Plugin)
    (h : Plugin.load_metadata menv benv p = .error e p') : p' = p := by
  unfold Plugin.load_metadata at h
  split at h
  · split at h
    · exact absurd h (by simp)
    · split at h
      · exact absurd h (by simp)
      · split at h <;> exact absurd h (by simp)
  · injection h with h1 h2
    exact h2.symm
  · exact absurd h (by simp)

/-- C10 witness: a parse failure returns `ParametersError` and the plugin
unchanged. -/
theorem c10_load_metadata_error_unchanged_witness :
    c10Plugin = c10Plugin :=
  c10_load_metadata_error_unchanged
    { openMetadata := none, readToString := some "x", parseToml := fun _ => none }
    { createDirOk := true, copyOk := true, bind := none }
    c10Plugin .parametersError c10Plugin (by rfl)

/-! ## C5: terminate error paths leave the user-visible state unchanged -/

/-- C5: `terminate` on a plugin with no bound module or that was never
started fails with `InvalidPlugin` leaving the state (in particular
`is_valid` and `started`) unchanged; `terminate` on a started, bound plugin
whose module lacks the `vplugin_exit` destructor export (with its metadata
loaded, as every bound plugin has) also fails with `InvalidPlugin` and
leaves `started` true. -/
theorem c5_terminate_error_paths (cfg : Config) (p : Plugin) :
    ((p.raw = none ∨ p.started = false) →
      Plugin.terminate cfg p = .error .invalidPlugin p) ∧
    (∀ lib, p.raw = some lib → p.started = true →
      lib.get "vplugin_exit" = false → p.metadata.isSome = true →
      Plugin.terminate cfg p = .error .invalidPlugin p) := by
  constructor
  · rintro (h | h) <;> unfold Plugin.terminate
    · simp [h]
    · cases hr : p.raw <;> simp [h]
  · intro lib hraw hstart hdtor hmeta
    unfold Plugin.terminate
    rw [hraw]
    cases hm : p.metadata with
    | none => rw [hm] at hmeta; exact absurd hmeta (by simp)
    | some m => simp [hstart, hdtor, hm]

/-- C5 witness: a never-started plugin and a started plugin without the
destructor export both get `InvalidPlugin` with state unchanged. -/
theorem c5_terminate_error_paths_witness :
    Plugin.terminate ⟨false⟩ c5Unstarted = .error .invalidPlugin c5Unstarted ∧
    Plugin.terminate ⟨false⟩ c5Started = .error .invalidPlugin c5Started :=
  ⟨(c5_terminate_error_paths ⟨false⟩ c5Unstarted).1 (Or.inr rfl),
   (c5_terminate_error_paths ⟨false⟩ c5Started).2 c5Lib rfl rfl rfl rfl⟩

/-! ## C6: terminate under the two configuration modes -/

/-- C6: a successful `terminate` under the non-reusable configuration clears
`is_valid`, releases the module handle, clears the metadata and the source
path, and every subsequent hook resolution on the result fails with
`InvalidPlugin`; under the default configuration it only clears `started`,
leaving every other field (the plugin stays bound). -/
theorem c6_terminate_config_modes (p : Plugin) (lib : Library)
    (hraw : p.raw = some lib) (hstart : p.started = true)
    (hdtor : lib.get "vplugin_exit" = true) :
    (Plugin.terminate ⟨true⟩ p = .ok p.nonReusableReset ∧
      ∀ fn,
        Plugin.load_vhook p.nonReusableReset fn = .error .invalidPlugin ∧
        Plugin.get_custom_hook p.nonReusableReset fn
          = .error .invalidPlugin) ∧
    Plugin.terminate ⟨false⟩ p = .ok { p with started := false } := by
  refine ⟨⟨?_, fun fn => ⟨?_, ?_⟩⟩, ?_⟩ <;>
    simp [Plugin.terminate, Plugin.load_vhook, Plugin.get_custom_hook,
          Plugin.nonReusableReset, hraw, hstart, hdtor]

/-- C6 witness: the two configuration modes at a concrete started plugin. -/
theorem c6_terminate_config_modes_witness :
    Plugin.terminate ⟨true⟩ c6Plugin = .ok c6Plugin.nonReusableReset ∧
    Plugin.terminate ⟨false⟩ c6Plugin = .ok { c6Plugin with started := false } :=
  ⟨(c6_terminate_config_modes c6Plugin c6Lib rfl rfl rfl).1.1,
   (c6_terminate_config_modes c6Plugin c6Lib rfl rfl rfl).2⟩

/-! ## C8: the state-validity chain is an invariant -/

/-- C8: `started ⇒ is_valid ⇒ module handle present` holds of every freshly
loaded plugin (`load_archive` and the full `load`) and is preserved by
`load_metadata` and `terminate` on both their success and error paths; the
hook resolvers take the plugin immutably and cannot change the state. -/
theorem c8_validity_chain_invariant :
    (∀ env f p, Plugin.load_archive env f = .ok p → p.invariant) ∧
    (∀ env f p, Plugin.load env f = .ok p → p.invariant) ∧
    (∀ menv benv p p', Plugin.load_metadata menv benv p = .ok p' →
      p'.invariant) ∧
    (∀ menv benv p e p', p.invariant →
      Plugin.load_metadata menv benv p = .error e p' → p'.invariant) ∧
    (∀ cfg p p', p.invariant → Plugin.terminate cfg p = .ok p' →
      p'.invariant) ∧
    (∀ cfg p e p', p.invariant → Plugin.terminate cfg p = .error e p' →
      p'.invariant) := by
  have hmeta : ∀ menv benv p p', Plugin.load_metadata menv benv p = .ok p' →
      p'.invariant := by
    intro menv benv p p' h
    unfold Plugin.load_metadata at h
    split at h
    · split at h
      · exact absurd h (by simp)
      · split at h
        · exact absurd h (by simp)
        · split at h
          · exact absurd h (by simp)
          · injection h with h1
            subst h1
            exact ⟨fun _ => rfl, fun _ => rfl⟩
    · exact absurd h (by simp)
    · exact absurd h (by simp)
  have harch : ∀ env f p, Plugin.load_archive env f = .ok p → p.invariant := by
    intro env f p h
    unfold Plugin.load_archive at h
    split at h
    · split at h <;> exact absurd h (by simp)
    · split at h
      · exact absurd h (by simp)
      · split at h
        · exact absurd h (by simp)
        · split at h
          · exact absurd h (by simp)
          · injection h with h1
            subst h1
            exact ⟨fun h => absurd h (by simp), fun h => absurd h (by simp)⟩
  refine ⟨harch, ?_, hmeta, ?_, ?_, ?_⟩
  · intro env f p h
    unfold Plugin.load at h
    split at h
    · exact absurd h (by simp)
    · exact absurd h (by simp)
    · rename_i plugin heq
      split at h
      · exact absurd h (by simp)
      · exact absurd h (by simp)
      · rename_i plugin' hmeq
        split at h
        · injection h with h1
          subst h1
          exact hmeta _ _ _ _ hmeq
        · exact absurd h (by simp)
  · intro menv benv p e p' hinv h
    unfold Plugin.load_metadata at h
    split at h
    · split at h
      · exact absurd h (by simp)
      · split at h
        · exact absurd h (by simp)
        · split at h <;> exact absurd h (by simp)
    · injection h with h1 h2
      subst h2
      exact hinv
    · exact absurd h (by simp)
  · intro cfg p p' hinv h
    unfold Plugin.terminate at h
    split at h
    · exact absurd h (by simp)
    · split at h
      · exact absurd h (by simp)
      · split at h
        · split at h
          · injection h with h1
            subst h1
            exact ⟨fun h => absurd h (by simp), fun h => absurd h (by simp)⟩
          · injection h with h1
            subst h1
            exact ⟨fun h => absurd h (by simp), fun hv => hinv.2 hv⟩
        · split at h
          · exact absurd h (by simp)
          · exact absurd h (by simp)
  · intro cfg p e p' hinv h
    unfold Plugin.terminate at h
    split at h
    · injection h with h1 h2
      subst h2
      exact hinv
    · split at h
      · injection h with h1 h2
        subst h2
        exact hinv
      · split at h
        · split at h <;> exact absurd h (by simp)
        · split at h
          · exact absurd h (by simp)
          · injection h with h1 h2
            subst h2
            exact hinv

/-- C8 witness: the invariant holds of a plugin freshly produced by
`load_archive` at a concrete environment. -/
theorem c8_validity_chain_invariant_witness :
    Plugin.invariant
      { metadata := none, filename := "w.vpl", is_valid := false
      , started := false, raw := none, archive := [] } :=
  c8_validity_chain_invariant.1 c8Env "w.vpl"
    { metadata := none, filename := "w.vpl", is_valid := false
    , started := false, raw := none, archive := [] } (by rfl)

/-! ## C1: identity violation in the manifest -/

/-- C1 counterexample: a manifest whose `name` contains a space does not make
`PluginMetadata::load` return a structured identity error — it panics,
terminating the process (`panic!` at src/plugin.rs lines 155-167). -/
theorem c1_name_violation_counterexample :
    (c1MetaEnv.parseToml "c1manifest").map (fun d => strContainsSpace d.metadata.name)
      = some true ∧
    PluginMetadata.load c1MetaEnv c1Plugin = RunResult.panic nameViolationMsg := by
  exact ⟨by decide, by decide⟩

/-- C1 amended: for every manifest whose `name` is empty or contains a
space, loading the plugin's metadata panics with the identity-violation
message — the process terminates instead of an error being returned to the
caller. -/
theorem c1_name_violation_panics (env : MetaEnv) (p : Plugin)
    (s : String) (d : Data)
    (hopen : env.openMetadata = none)
    (hread : env.readToString = some s)
    (hparse : env.parseToml s = some d)
    (hname : strIsEmpty d.metadata.name = true ∨
      strContainsSpace d.metadata.name = true) :
    PluginMetadata.load env p = RunResult.panic nameViolationMsg := by
  simp only [PluginMetadata.load, hopen, hread, hparse]
  rcases hname with h | h <;> simp [h]

/-- C1 witness: the amended statement at the concrete manifest with the name
"bad name". -/
theorem c1_name_violation_panics_witness :
    PluginMetadata.load c1MetaEnv c1Plugin = RunResult.panic nameViolationMsg :=
  c1_name_violation_panics c1MetaEnv c1Plugin "c1manifest" c1Data rfl rfl rfl
    (Or.inr (by decide))

/-! ## C2: load-stage failures and process termination -/

/-- C2 counterexample: a corrupted or unreadable package is not returned to
the caller as `InternalError` — `ZipArchive::new(file).unwrap()`
(src/plugin.rs line 225) panics, terminating the process. -/
theorem c2_load_failure_counterexample :
    Plugin.load_archive c2ArchEnv "corrupted.vpl"
      = RunResult.panic "corrupted or unreadable package" := by
  decide

/-- C2 amended: only the initial file-open failure is returned as a typed
error; a corrupted or unreadable package, a failed copy of the module file
and a failed dynamic bind each panic, terminating the process
(`unwrap` at src/plugin.rs lines 225, 349 and 352). -/
theorem c2_load_failures_panic :
    (∀ env f, env.openFile = none → env.createVpluginDir = false →
      env.zip = none →
      Plugin.load_archive env f
        = RunResult.panic "corrupted or unreadable package") ∧
    (∀ k e env f, env.openFile = some k → ioErrorToVPluginError k = some e →
      Plugin.load_archive env f = RunResult.error e) ∧
    (∀ menv benv p v, PluginMetadata.load menv p = RunResult.ok v →
      benv.createDirOk = true → benv.copyOk = false →
      Plugin.load_metadata menv benv p
        = MutResult.panic "failed to copy module file") ∧
    (∀ menv benv p v, PluginMetadata.load menv p = RunResult.ok v →
      benv.createDirOk = true → benv.copyOk = true → benv.bind = none →
      Plugin.load_metadata menv benv p
        = MutResult.panic "failed to bind module") := by
  refine ⟨?_, ?_, ?_, ?_⟩
  · intro env f h1 h2 h3
    simp [Plugin.load_archive, h1, h2, h3]
  · intro k e env f h1 h2
    simp [Plugin.load_archive, h1, h2]
  · intro menv benv p v h1 h2 h3
    simp [Plugin.load_metadata, h1, h2, h3]
  · intro menv benv p v h1 h2 h3 h4
    simp [Plugin.load_metadata, h1, h2, h3, h4]

/-- C2 witness: the amended statement at concrete environments — a corrupted
package panics, a `NotFound` open failure returns `NoSuchFile`, and a failed
module copy panics. -/
theorem c2_load_failures_panic_witness :
    Plugin.load_archive c2ArchEnv "corrupted.vpl"
      = RunResult.panic "corrupted or unreadable package" ∧
    Plugin.load_archive
      { openFile := some .notFound, createVpluginDir := false
      , setCurrentDirOk := true, zip := none } "absent.vpl"
      = RunResult.error .noSuchFile ∧
    Plugin.load_metadata c2MetaEnv
      { createDirOk := true, copyOk := false, bind := none } c2Plugin
      = MutResult.panic "failed to copy module file" :=
  ⟨c2_load_failures_panic.1 c2ArchEnv "corrupted.vpl" rfl rfl rfl,
   c2_load_failures_panic.2.1 .notFound .noSuchFile
     { openFile := some .notFound, createVpluginDir := false
     , setCurrentDirOk := true, zip := none } "absent.vpl" rfl rfl,
   c2_load_failures_panic.2.2.1 c2MetaEnv
     { createDirOk := true, copyOk := false, bind := none } c2Plugin
     { description := none, version := "1.0.0", name := "c2plugin"
     , filename := "metadata.toml", objfile := "c2.so" } (by decide) rfl rfl⟩

/-! ## C3: destroying a plugin without metadata -/

/-- C3 counterexample: dropping a plugin that never reached the
metadata-loaded state does crash — `Drop` unconditionally computes
`self.metadata.as_ref().unwrap().name` (src/plugin.rs line 447), which
panics when the metadata is absent. -/
theorem c3_drop_counterexample :
    Plugin.drop c3Plugin true
      = RunResult.panic "called Option unwrap on a None value" := by
  exact rfl

/-- C3 amended: dropping a plugin whose metadata is absent panics (teardown
assumes metadata presence instead of skipping cleanup or using a fallback
key); when metadata is present, teardown is best-effort — it succeeds
whether or not the directory removal succeeds. -/
theorem c3_drop_without_metadata_panics :
    (∀ p ok, p.metadata = none →
      Plugin.drop p ok
        = RunResult.panic "called Option unwrap on a None value") ∧
    (∀ p m ok, p.metadata = some m → Plugin.drop p ok = RunResult.ok ()) := by
  constructor
  · intro p ok h
    unfold Plugin.drop
    rw [h]
  · intro p m ok h
    unfold Plugin.drop
    rw [h]
    cases ok <;> rfl

/-- C3 witness: the amended statement at a metadata-less plugin and at one
with metadata whose directory removal fails. -/
theorem c3_drop_without_metadata_panics_witness :
    Plugin.drop c3Plugin true
      = RunResult.panic "called Option unwrap on a None value" ∧
    Plugin.drop { c3Plugin with metadata := some c3Metadata } false
      = RunResult.ok () :=
  ⟨c3_drop_without_metadata_panics.1 c3Plugin true rfl,
   c3_drop_without_metadata_panics.2
     { c3Plugin with metadata := some c3Metadata } c3Metadata false rfl⟩

/-! ## C9: the successful load pipeline -/

/-- C9: for every archive that opens and extracts cleanly, whose manifest
parses with a non-empty, space-free `name`, and whose module file copies and
binds, the full `Plugin::load` pipeline succeeds and yields a plugin with
`is_valid = true` whose `metadata.name` equals the name declared in the
manifest. -/
theorem c9_load_pipeline_success (env : LoadEnv) (f s : String) (d : Data)
    (entries : List ZipEntry) (lib : Library)
    (h1 : env.arch.openFile = none)
    (h2 : env.arch.setCurrentDirOk = true)
    (h3 : env.arch.zip = some entries)
    (h4 : extractEntries entries = RunResult.ok ())
    (h5 : env.meta.openMetadata = none)
    (h6 : env.meta.readToString = some s)
    (h7 : env.meta.parseToml s = some d)
    (h8 : strIsEmpty d.metadata.name = false)
    (h9 : strContainsSpace d.metadata.name = false)
    (h10 : env.bindEnv.createDirOk = true)
    (h11 : env.bindEnv.copyOk = true)
    (h12 : env.bindEnv.bind = some lib)
    (h13 : env.createPluginDirOk = true) :
    ∃ p, Plugin.load env f = RunResult.ok p ∧ p.is_valid = true ∧
      Option.map PluginMetadata.name p.metadata = some d.metadata.name := by
  refine
    ⟨{ metadata := some
        { description := none, version := d.metadata.version
        , name := d.metadata.name, filename := "metadata.toml"
        , objfile := d.metadata.objfile }
     , filename := f, is_valid := true, started := false, raw := some lib
     , archive := entries }, ?_, rfl, rfl⟩
  simp [Plugin.load, Plugin.load_archive, Plugin.load_metadata,
    PluginMetadata.load, h1, h2, h3, h4, h5, h6, h7, h8, h9, h10, h11, h12,
    h13]

/-- C9 witness: the pipeline at a concrete well-formed archive. -/
theorem c9_load_pipeline_success_witness :
    ∃ p, Plugin.load c9Env "c9.vpl" = RunResult.ok p ∧ p.is_valid = true ∧
      Option.map PluginMetadata.name p.metadata = some c9Data.metadata.name :=
  c9_load_pipeline_success c9Env "c9.vpl" "c9manifest" c9Data c9Entries c9Lib
    rfl rfl rfl (by decide) rfl rfl rfl (by decide) (by decide) rfl rfl rfl
    rfl

end VPlugin
